import Mathlib

/-!
Shallow embedding of the `food_recognition` training and inference pipeline
(config.py, utils/dataset.py, utils/training_utils.py, training/train.py,
models/food_classifier.py, scripts/inference.py).

Conventions of the embedding:
* Python floats that the control flow compares or stores are modelled as `ℚ`
  (every literal in the sources is a finite decimal).
* Python `dict` values are modelled as association lists in insertion order;
  lookup follows dict semantics (the most recent binding for a key wins).
* Fallible constructors and loaders return `Except String`, the string being
  the Python exception raised at that point.
* `torch.save` / `torch.load` are modelled as passing the saved record by
  value; a serialized checkpoint is the record `SaveFile` below.
-/

/-- Lookup in an association list with Python `dict` semantics: the binding
inserted last for a key shadows earlier ones. -/
def dictLookup {α : Type _} {β : Type _} [BEq α] : List (α × β) → α → Option β
  | [], _ => none
  | p :: t, k =>
    match dictLookup t k with
    | some v => some v
    | none => if p.1 == k then some p.2 else none

/-- One record of the static nutrition table in `ModelConfig.food_categories`
(config.py lines 48-148): calories, protein, carbs, fat, fiber. -/
structure Macros where
  calories : ℚ
  protein : ℚ
  carbs : ℚ
  fat : ℚ
  fiber : ℚ
deriving Repr, DecidableEq

/-- The static table `ModelConfig.food_categories` (config.py lines 48-148),
in source order: category name to its macro record. -/
def food_categories : List (String × Macros) := [
    ("apple_pie", Macros.mk 237 2.4 34.0 11.0 1.8),
    ("baby_back_ribs", Macros.mk 290 25.0 0.0 20.0 0.0),
    ("baklava", Macros.mk 334 4.0 45.0 16.0 1.5),
    ("beef_carpaccio", Macros.mk 120 20.0 0.0 4.0 0.0),
    ("beef_tartare", Macros.mk 180 25.0 2.0 8.0 0.0),
    ("beet_salad", Macros.mk 43 1.6 9.6 0.2 2.8),
    ("beignets", Macros.mk 302 4.0 35.0 16.0 1.0),
    ("bibimbap", Macros.mk 320 12.0 45.0 12.0 6.0),
    ("bread_pudding", Macros.mk 245 6.0 35.0 10.0 1.5),
    ("breakfast_burrito", Macros.mk 350 18.0 30.0 18.0 3.0),
    ("bruschetta", Macros.mk 120 4.0 15.0 6.0 2.0),
    ("caesar_salad", Macros.mk 180 8.0 8.0 14.0 3.0),
    ("cannoli", Macros.mk 280 6.0 35.0 14.0 1.0),
    ("caprese_salad", Macros.mk 120 6.0 8.0 8.0 2.0),
    ("carrot_cake", Macros.mk 320 5.0 45.0 14.0 2.0),
    ("ceviche", Macros.mk 140 20.0 8.0 4.0 1.0),
    ("cheesecake", Macros.mk 350 6.0 30.0 22.0 0.5),
    ("chicken_curry", Macros.mk 280 20.0 25.0 12.0 4.0),
    ("chicken_quesadilla", Macros.mk 320 18.0 25.0 18.0 2.0),
    ("chicken_wings", Macros.mk 290 25.0 0.0 20.0 0.0),
    ("chocolate_cake", Macros.mk 380 5.0 50.0 18.0 2.0),
    ("chocolate_mousse", Macros.mk 280 4.0 25.0 18.0 1.0),
    ("churros", Macros.mk 320 4.0 45.0 14.0 1.0),
    ("clam_chowder", Macros.mk 180 12.0 15.0 8.0 2.0),
    ("club_sandwich", Macros.mk 350 20.0 25.0 18.0 2.0),
    ("crab_cakes", Macros.mk 220 18.0 8.0 12.0 1.0),
    ("creme_brulee", Macros.mk 320 4.0 30.0 20.0 0.0),
    ("croque_madame", Macros.mk 380 18.0 25.0 22.0 1.0),
    ("cup_cakes", Macros.mk 280 4.0 40.0 12.0 1.0),
    ("deviled_eggs", Macros.mk 140 8.0 2.0 12.0 0.0),
    ("donuts", Macros.mk 300 4.0 45.0 12.0 1.0),
    ("dumplings", Macros.mk 220 8.0 35.0 6.0 2.0),
    ("edamame", Macros.mk 120 12.0 10.0 5.0 5.0),
    ("eggs_benedict", Macros.mk 320 16.0 8.0 25.0 1.0),
    ("escargots", Macros.mk 140 12.0 4.0 8.0 1.0),
    ("falafel", Macros.mk 240 8.0 30.0 12.0 6.0),
    ("filet_mignon", Macros.mk 250 25.0 0.0 15.0 0.0),
    ("fish_and_chips", Macros.mk 380 15.0 35.0 20.0 2.0),
    ("foie_gras", Macros.mk 460 8.0 2.0 45.0 0.0),
    ("french_fries", Macros.mk 365 4.0 63.0 14.0 4.0),
    ("french_onion_soup", Macros.mk 180 8.0 20.0 8.0 2.0),
    ("french_toast", Macros.mk 280 8.0 35.0 12.0 1.0),
    ("fried_calamari", Macros.mk 260 12.0 20.0 14.0 1.0),
    ("fried_rice", Macros.mk 280 8.0 45.0 8.0 2.0),
    ("frozen_yogurt", Macros.mk 140 4.0 25.0 4.0 0.0),
    ("garlic_bread", Macros.mk 280 8.0 40.0 12.0 2.0),
    ("gnocchi", Macros.mk 220 6.0 40.0 4.0 2.0),
    ("greek_salad", Macros.mk 160 6.0 8.0 12.0 3.0),
    ("grilled_cheese_sandwich", Macros.mk 320 12.0 25.0 18.0 1.0),
    ("grilled_salmon", Macros.mk 280 30.0 0.0 16.0 0.0),
    ("guacamole", Macros.mk 160 2.0 8.0 14.0 4.0),
    ("hamburger", Macros.mk 350 20.0 25.0 18.0 2.0),
    ("hot_and_sour_soup", Macros.mk 120 8.0 15.0 4.0 2.0),
    ("hot_dog", Macros.mk 280 12.0 20.0 18.0 1.0),
    ("huevos_rancheros", Macros.mk 320 16.0 25.0 18.0 4.0),
    ("hummus", Macros.mk 160 6.0 15.0 8.0 4.0),
    ("ice_cream", Macros.mk 200 4.0 25.0 10.0 0.0),
    ("lasagna", Macros.mk 320 18.0 25.0 18.0 3.0),
    ("lobster_bisque", Macros.mk 220 12.0 15.0 12.0 1.0),
    ("lobster_roll_sandwich", Macros.mk 320 16.0 25.0 18.0 1.0),
    ("macaroni_and_cheese", Macros.mk 320 12.0 35.0 14.0 2.0),
    ("macarons", Macros.mk 90 2.0 12.0 4.0 0.0),
    ("miso_soup", Macros.mk 60 4.0 8.0 2.0 1.0),
    ("mussels", Macros.mk 140 18.0 4.0 6.0 0.0),
    ("nachos", Macros.mk 380 12.0 35.0 22.0 3.0),
    ("omelette", Macros.mk 220 14.0 4.0 16.0 1.0),
    ("onion_rings", Macros.mk 320 4.0 35.0 18.0 2.0),
    ("oysters", Macros.mk 80 8.0 4.0 4.0 0.0),
    ("pad_thai", Macros.mk 320 12.0 45.0 12.0 3.0),
    ("paella", Macros.mk 280 16.0 35.0 10.0 3.0),
    ("pancakes", Macros.mk 220 6.0 35.0 8.0 1.0),
    ("panna_cotta", Macros.mk 280 4.0 25.0 18.0 0.0),
    ("peking_duck", Macros.mk 320 25.0 8.0 20.0 1.0),
    ("pho", Macros.mk 220 16.0 25.0 8.0 2.0),
    ("pizza", Macros.mk 280 12.0 35.0 12.0 2.0),
    ("pork_chop", Macros.mk 280 25.0 0.0 18.0 0.0),
    ("poutine", Macros.mk 420 12.0 35.0 25.0 2.0),
    ("prime_rib", Macros.mk 320 28.0 0.0 22.0 0.0),
    ("pulled_pork_sandwich", Macros.mk 350 20.0 25.0 18.0 2.0),
    ("ramen", Macros.mk 280 12.0 35.0 12.0 2.0),
    ("ravioli", Macros.mk 240 10.0 35.0 8.0 2.0),
    ("red_velvet_cake", Macros.mk 350 5.0 45.0 16.0 1.0),
    ("risotto", Macros.mk 280 8.0 45.0 8.0 2.0),
    ("samosa", Macros.mk 260 6.0 30.0 14.0 3.0),
    ("sashimi", Macros.mk 120 20.0 0.0 4.0 0.0),
    ("scallops", Macros.mk 140 20.0 4.0 6.0 0.0),
    ("seaweed_salad", Macros.mk 60 4.0 8.0 2.0 2.0),
    ("shrimp_and_grits", Macros.mk 280 16.0 25.0 14.0 2.0),
    ("spaghetti_bolognese", Macros.mk 320 16.0 35.0 12.0 3.0),
    ("spaghetti_carbonara", Macros.mk 380 16.0 35.0 18.0 2.0),
    ("spring_rolls", Macros.mk 180 6.0 25.0 8.0 3.0),
    ("steak", Macros.mk 280 25.0 0.0 18.0 0.0),
    ("strawberry_shortcake", Macros.mk 280 4.0 35.0 14.0 1.0),
    ("sushi", Macros.mk 140 8.0 20.0 4.0 1.0),
    ("tacos", Macros.mk 220 12.0 20.0 12.0 3.0),
    ("takoyaki", Macros.mk 180 8.0 20.0 8.0 1.0),
    ("tiramisu", Macros.mk 320 6.0 35.0 16.0 1.0),
    ("tuna_tartare", Macros.mk 160 20.0 4.0 8.0 1.0),
    ("waffles", Macros.mk 260 6.0 35.0 12.0 1.0)]

/-- Zero-macros record returned by `_get_macros_for_class` for a category
that is absent from the table (inference.py lines 140-147). -/
def zeroMacros : Macros := ⟨0, 0, 0, 0, 0⟩

/-- `FoodRecognitionPredictor._get_macros_for_class` (inference.py lines
135-147): return the table entry when the class name is a key of
`config.food_categories`, the all-zero record otherwise. -/
def getMacrosForClass (class_name : String) : Macros :=
  match dictLookup food_categories class_name with
  | some m => m
  | none => zeroMacros

/-- The `ModelConfig` dataclass (config.py lines 5-148): scalar
hyperparameters with their source defaults.  The static `food_categories`
table is the top-level definition above. -/
structure ModelConfig where
  model_name : String := "resnet50"
  num_classes : Nat := 101
  pretrained : Bool := true
  dropout_rate : ℚ := 0.5
  batch_size : Nat := 32
  learning_rate : ℚ := 0.001
  num_epochs : Nat := 50
  weight_decay : ℚ := 0.0001
  scheduler_step_size : Nat := 7
  scheduler_gamma : ℚ := 0.1
  image_size : Nat := 224
  num_workers : Nat := 4
  train_split : ℚ := 0.8
  val_split : ℚ := 0.1
  test_split : ℚ := 0.1
  use_augmentation : Bool := true
  data_dir : String := "data"
  models_dir : String := "models"
  logs_dir : String := "logs"
  macro_estimation_enabled : Bool := true
  serving_size_estimation : Bool := true
deriving Repr, DecidableEq

/-- `ModelConfig.__post_init__` (config.py lines 150-153): it only creates
the three directories with `os.makedirs(..., exist_ok=True)`; it performs no
validation of any field.  Modelled as the list of directories created. -/
def ModelConfig.postInitDirs (c : ModelConfig) : List String :=
  [c.data_dir, c.models_dir, c.logs_dir]

/-- Dataclass construction of `ModelConfig`: the fields are assigned and
`__post_init__` runs (directory creation only, config.py lines 150-153).
No code path raises for any field values, so construction always succeeds. -/
def ModelConfig.construct (c : ModelConfig) : Except String ModelConfig :=
  Except.ok c

/-- Python's `model_name.startswith(p)` as a computation on character
lists. -/
def strStartsWith (s p : String) : Bool :=
  p.toList.isPrefixOf s.toList

/-- Substring test: Python's `"50" in model_name` (food_classifier.py line
265).  True when `needle` occurs contiguously in `hay`. -/
def containsSub (hay needle : String) : Bool :=
  hay.toList.tails.any (fun t => needle.toList.isPrefixOf t)

/-- Published `fc.in_features` of the torchvision ResNet family, keyed by the
five names accepted by `FoodClassifier._get_resnet_model` (food_classifier.py
lines 64-77).  External library data recorded so that
`feature_dim = self.backbone.fc.in_features` (line 36) can be evaluated. -/
def torchvisionResnetFeatures : String → Option Nat
  | "resnet18" => some 512
  | "resnet34" => some 512
  | "resnet50" => some 2048
  | "resnet101" => some 2048
  | "resnet152" => some 2048
  | _ => none

/-- Published `num_features` of common timm efficientnet / vit backbones.
External library data recorded so that `feature_dim =
self.backbone.num_features` (food_classifier.py lines 40 and 43) can be
evaluated; an unknown name makes `timm.create_model` raise. -/
def timmNumFeatures : String → Option Nat
  | "efficientnet_b0" => some 1280
  | "efficientnet_b1" => some 1280
  | "efficientnet_b2" => some 1408
  | "efficientnet_b3" => some 1536
  | "efficientnet_b4" => some 1792
  | "efficientnet_b5" => some 2048
  | "vit_base_patch16_224" => some 768
  | "vit_small_patch16_224" => some 384
  | "vit_large_patch16_224" => some 1024
  | _ => none

/-- Result of `FoodClassifier.__init__` (food_classifier.py lines 14-62):
the backbone choice reduced to its name, the class count, and the feature
dimension the classifier derives from the backbone it actually loaded. -/
structure FoodClassifier where
  model_name : String
  num_classes : Nat
  feature_dim : Nat
deriving Repr, DecidableEq

/-- `FoodClassifier.__init__` (food_classifier.py lines 14-45): dispatch on
the name prefix; resnets go through `_get_resnet_model`'s closed map (lines
64-77, unknown variants raise ValueError), efficientnet/vit go through
`timm.create_model`; any other name raises
`ValueError("Unsupported model: ...")` (line 45). -/
def FoodClassifier.init (model_name : String) (num_classes : Nat) :
    Except String FoodClassifier :=
  if strStartsWith model_name "resnet" then
    match torchvisionResnetFeatures model_name with
    | some d => Except.ok (FoodClassifier.mk model_name num_classes d)
    | none => Except.error ("Unsupported ResNet model: " ++ model_name)
  else if strStartsWith model_name "efficientnet" then
    match timmNumFeatures model_name with
    | some d => Except.ok (FoodClassifier.mk model_name num_classes d)
    | none => Except.error ("timm: unknown model " ++ model_name)
  else if strStartsWith model_name "vit" then
    match timmNumFeatures model_name with
    | some d => Except.ok (FoodClassifier.mk model_name num_classes d)
    | none => Except.error ("timm: unknown model " ++ model_name)
  else
    Except.error ("Unsupported model: " ++ model_name)

/-- `MacroEstimator.__init__` (food_classifier.py lines 148-173): a
three-layer regressor `Linear(feature_dim, hidden_dim) -> Linear(hidden_dim,
hidden_dim / 2) -> Linear(hidden_dim / 2, 5)`, recorded by its declared
dimensions. -/
structure MacroEstimator where
  feature_dim : Nat
  hidden_dim : Nat := 512
deriving Repr, DecidableEq

/-- `FoodRecognitionModel.__init__` (food_classifier.py lines 187-208). -/
structure FoodRecognitionModel where
  classifier : FoodClassifier
  macro_estimator : Option MacroEstimator
  use_macro_estimation : Bool
deriving Repr, DecidableEq

/-- Feature dimension that `create_model` (food_classifier.py lines 262-269)
assigns to the macro estimator: pure string heuristics on the model name,
2048 for a resnet name containing "50", "101" or "152" else 512, a fixed
1280 for every efficientnet name, and 768 for everything else. -/
def createModelMacroFeatureDim (model_name : String) : Nat :=
  if strStartsWith model_name "resnet" then
    if containsSub model_name "50" || containsSub model_name "101"
        || containsSub model_name "152" then 2048 else 512
  else if strStartsWith model_name "efficientnet" then 1280
  else 768

/-- `create_model` (food_classifier.py lines 245-280): build the classifier,
then, when macro estimation is requested, a `MacroEstimator` whose input
dimension comes from `createModelMacroFeatureDim`, and assemble both into a
`FoodRecognitionModel`. -/
def create_model (model_name : String) (num_classes : Nat)
    (use_macro_estimation : Bool) : Except String FoodRecognitionModel :=
  match FoodClassifier.init model_name num_classes with
  | Except.error e => Except.error e
  | Except.ok classifier =>
    let me : Option MacroEstimator :=
      if use_macro_estimation then
        some (MacroEstimator.mk (createModelMacroFeatureDim model_name) 512)
      else none
    Except.ok (FoodRecognitionModel.mk classifier me use_macro_estimation)

/-- Shape rule of `nn.Linear(inDim, outDim)` applied to a feature vector of
size `d`: the forward succeeds with a vector of size `outDim` exactly when
`d = inDim`, and raises a shape-mismatch error otherwise. -/
def linearApplyDim (inDim outDim d : Nat) : Option Nat :=
  if d = inDim then some outDim else none

/-- Output size of `MacroEstimator.forward` (food_classifier.py lines
163-171 and 183-185) on a feature vector of size `d`, `none` when a layer
raises a shape mismatch. -/
def MacroEstimator.forwardDim (m : MacroEstimator) (d : Nat) : Option Nat :=
  match linearApplyDim m.feature_dim m.hidden_dim d with
  | none => none
  | some h1 =>
    match linearApplyDim m.hidden_dim (m.hidden_dim / 2) h1 with
    | none => none
    | some h2 => linearApplyDim (m.hidden_dim / 2) 5 h2

/-- Shape behaviour of `FoodRecognitionModel.forward` (food_classifier.py
lines 210-227): the backbone's features (of the classifier's derived
dimension) feed the macro estimator when `use_macro_estimation` is set and
an estimator exists.  Returns `(num_classes, macro output size)` on
success, `none` when the macro head raises a shape mismatch at runtime. -/
def FoodRecognitionModel.forwardOutputDims (m : FoodRecognitionModel) :
    Option (Nat × Option Nat) :=
  let featDim := m.classifier.feature_dim
  if m.use_macro_estimation then
    match m.macro_estimator with
    | some me =>
      match me.forwardDim featDim with
      | some outD => some (m.classifier.num_classes, some outD)
      | none => none
    | none => some (m.classifier.num_classes, none)
  else some (m.classifier.num_classes, none)

/-- `sorted(...)` over directory names (dataset.py line 40). -/
def sortStrings (l : List String) : List String :=
  l.mergeSort (fun a b => a ≤ b)

/-- The dict comprehension building the class mapping from the sorted class
names (dataset.py line 41):
`{class_name: idx for idx, class_name in enumerate(classes)}`. -/
def buildClassMapping (classes : List String) : List (String × Nat) :=
  classes.enum.map (fun p => (p.2, p.1))

/-- The dict comprehension building the reverse mapping (dataset.py line 46):
`{idx: class_name for class_name, idx in self.class_mapping.items()}`. -/
def invertPairs (m : List (String × Nat)) : List (Nat × String) :=
  m.map (fun p => (p.2, p.1))

/-- View of the filesystem as `FoodDataset.__init__` observes it:
whether `data_dir.parent/class_mapping.json` exists (and, when it does, the
mapping it holds), which split directories exist under `data_dir`, the
subdirectory names of each split, and the `*.jpg` files of each class
directory. -/
structure FS where
  class_mapping_file : Option (List (String × Nat))
  split_dirs : List String
  class_dirs : String → List String
  jpg_files : String → String → List String

/-- State of a constructed `FoodDataset` (dataset.py lines 16-60). -/
structure FoodDataset where
  class_mapping : List (String × Nat)
  idx_to_class : List (Nat × String)
  images : List String
  labels : List Nat
deriving Repr, DecidableEq

/-- `FoodDataset.__init__` (dataset.py lines 19-60).  The class mapping is
the supplied one, else the persisted `class_mapping.json`, else it is built
by scanning `data_dir/split` — and only that last path touches the split
directory before enumeration, raising `FileNotFoundError` when it is absent
(`split_dir.iterdir()`, line 40).  Image enumeration (lines 52-58) guards
every class directory with `class_dir.exists()`, so an absent split
directory contributes no samples and raises nothing there.  Sample paths are
recorded in mapping-insertion order within `class_dir.glob("*.jpg")` order. -/
def FoodDataset.init (fs : FS) (split : String)
    (class_mapping : Option (List (String × Nat))) :
    Except String FoodDataset :=
  let mappingE : Except String (List (String × Nat)) :=
    match class_mapping with
    | some m => Except.ok m
    | none =>
      match fs.class_mapping_file with
      | some m => Except.ok m
      | none =>
        if fs.split_dirs.contains split then
          Except.ok (buildClassMapping (sortStrings (fs.class_dirs split)))
        else
          Except.error "FileNotFoundError"
  match mappingE with
  | Except.error e => Except.error e
  | Except.ok mapping =>
    let pairs := mapping.flatMap (fun p =>
      if fs.split_dirs.contains split && (fs.class_dirs split).contains p.1 then
        (fs.jpg_files split p.1).map (fun img => (img, p.2))
      else [])
    Except.ok (FoodDataset.mk mapping (invertPairs mapping)
      (pairs.map Prod.fst) (pairs.map Prod.snd))

/-- `Trainer.train_history` (training_utils.py lines 65-70): four append-only
per-epoch metric lists. -/
structure TrainHistory where
  loss : List ℚ
  accuracy : List ℚ
  val_loss : List ℚ
  val_accuracy : List ℚ
deriving Repr, DecidableEq

/-- The empty history a fresh `Trainer.__init__` starts with. -/
def TrainHistory.empty : TrainHistory := TrainHistory.mk [] [] [] []

/-- What one epoch of `train_epoch` followed by `validate_epoch` produces
(training_utils.py lines 76-157): the parameter/optimizer states after the
gradient steps of the epoch, and the four aggregated metrics.  The gradient
arithmetic itself is outside the orchestration being verified, so the
per-epoch results are inputs to the loop. -/
structure EpochOutcome where
  newModel : Nat
  newOptim : Nat
  train_loss : ℚ
  train_accuracy : ℚ
  val_loss : ℚ
  val_accuracy : ℚ
deriving Repr, DecidableEq

/-- A file written with `torch.save`: the named fields a checkpoint bundle
may carry (training_utils.py lines 209-227).  A field the writer omitted is
`none`; reading an omitted field raises `KeyError`. -/
structure SaveFile where
  epoch : Option Nat
  model_state_dict : Option Nat
  optimizer_state_dict : Option Nat
  scheduler_state_dict : Option Nat
  train_history : Option TrainHistory
  best_val_accuracy : Option ℚ
  config : Option ModelConfig
deriving Repr, DecidableEq

/-- Mutable state of a `Trainer` (training_utils.py lines 19-74): abstract
model/optimizer parameter snapshots, the scheduler's step count, the history,
and the best-model tracking fields. -/
structure Trainer where
  modelState : Nat
  optimState : Nat
  schedState : Nat
  train_history : TrainHistory
  best_val_accuracy : ℚ
  best_model_path : Option String
  config : ModelConfig
deriving Repr, DecidableEq

/-- `Trainer.save_model` (training_utils.py lines 209-215): the written file
holds only `model_state_dict`, `config` and `train_history`. -/
def Trainer.save_model_file (t : Trainer) : SaveFile :=
  SaveFile.mk none (some t.modelState) none none
    (some t.train_history) none (some t.config)

/-- `Trainer.save_checkpoint` (training_utils.py lines 217-227): the written
file holds `epoch`, `model_state_dict`, `optimizer_state_dict`,
`scheduler_state_dict`, `train_history`, `best_val_accuracy` and `config`. -/
def Trainer.save_checkpoint_file (t : Trainer) (epoch : Nat) : SaveFile :=
  SaveFile.mk (some epoch) (some t.modelState) (some t.optimState)
    (some t.schedState) (some t.train_history) (some t.best_val_accuracy)
    (some t.config)

/-- `Trainer.load_checkpoint` (training_utils.py lines 229-239): the fields
are read in source order — `model_state_dict`, `optimizer_state_dict`,
`scheduler_state_dict`, `train_history`, `best_val_accuracy`, finally
`epoch` at the return — and a missing field raises `KeyError` there.  On
success the trainer's five restored fields are overwritten verbatim and the
recorded epoch is returned.  (In the source the model weights are loaded
before a later `KeyError` can fire; the embedding only reports the error.) -/
def Trainer.load_checkpoint (t : Trainer) (f : SaveFile) :
    Except String (Trainer × Nat) :=
  match f.model_state_dict with
  | none => Except.error "KeyError: model_state_dict"
  | some m =>
    match f.optimizer_state_dict with
    | none => Except.error "KeyError: optimizer_state_dict"
    | some o =>
      match f.scheduler_state_dict with
      | none => Except.error "KeyError: scheduler_state_dict"
      | some s =>
        match f.train_history with
        | none => Except.error "KeyError: train_history"
        | some h =>
          match f.best_val_accuracy with
          | none => Except.error "KeyError: best_val_accuracy"
          | some b =>
            match f.epoch with
            | none => Except.error "KeyError: epoch"
            | some e =>
              Except.ok (Trainer.mk m o s h b t.best_model_path t.config, e)

/-- Symbolic loss expression, to record which terms feed `loss.backward()`:
the classification cross-entropy (training_utils.py line 94), the MSE term
the unused `macro_criterion` (line 48) could produce, and the combinators
available to mix them. -/
inductive LossExpr where
  | crossEntropy : LossExpr
  | mseMacroLoss : LossExpr
  | add : LossExpr → LossExpr → LossExpr
  | smul : ℚ → LossExpr → LossExpr
deriving Repr, DecidableEq

/-- Whether a loss expression mentions the macro-regression MSE term — the
gradient of its parameters is nonzero only through such a term. -/
def LossExpr.mentionsMacroTerm : LossExpr → Bool
  | LossExpr.crossEntropy => false
  | LossExpr.mseMacroLoss => true
  | LossExpr.add a b => a.mentionsMacroTerm || b.mentionsMacroTerm
  | LossExpr.smul _ a => a.mentionsMacroTerm

/-- Per-batch loss value selected by `Trainer.train_epoch` (training_utils.py
lines 93-101): both branches of the `if` assign the classification
cross-entropy value (the source comments that macro labels would be needed). -/
def train_epoch_batch_loss (macro_enabled : Bool) (macro_output : Option (List ℚ))
    (classification_loss : ℚ) : ℚ :=
  if macro_enabled && macro_output.isSome then
    classification_loss
  else
    classification_loss

/-- Per-batch loss expression backpropagated by `Trainer.train_epoch`
(training_utils.py lines 93-105), as the symbolic term handed to
`loss.backward()` before `optimizer.step()`. -/
def train_epoch_batch_loss_expr (macro_enabled : Bool)
    (macro_output_present : Bool) : LossExpr :=
  let classification_loss := LossExpr.crossEntropy
  if macro_enabled && macro_output_present then
    classification_loss
  else
    classification_loss

/-- Appending one epoch's metrics to the history (training_utils.py lines
184-187). -/
def TrainHistory.push (h : TrainHistory) (o : EpochOutcome) : TrainHistory :=
  TrainHistory.mk (h.loss ++ [o.train_loss]) (h.accuracy ++ [o.train_accuracy])
    (h.val_loss ++ [o.val_loss]) (h.val_accuracy ++ [o.val_accuracy])

/-- File name of the best-model snapshot of an epoch (training_utils.py line
192); `epoch` is the zero-based loop index. -/
def bestModelPathOf (epoch : Nat) : String :=
  "best_model_epoch_" ++ toString (epoch + 1) ++ ".pth"

/-- File name of the periodic checkpoint of an epoch (training_utils.py line
199). -/
def checkpointPathOf (epoch : Nat) : String :=
  "checkpoint_epoch_" ++ toString (epoch + 1) ++ ".pth"

/-- Observable file writes of the training loop. -/
inductive TrainEvent where
  | savedBest : Nat → String → SaveFile → TrainEvent
  | savedCkpt : Nat → String → SaveFile → TrainEvent
  | savedFinal : String → SaveFile → TrainEvent
deriving Repr, DecidableEq

/-- Body of one iteration of `Trainer.train`'s epoch loop (training_utils.py
lines 167-200): run the epoch and the validation pass (their results are
`o`), advance the scheduler one step, append the metrics to the history,
save a best-model file when the epoch's validation accuracy strictly exceeds
the best so far, and save a periodic checkpoint on every 10th epoch. -/
def Trainer.epochBody (t : Trainer) (epoch : Nat) (o : EpochOutcome) :
    Trainer × List TrainEvent :=
  let hist := t.train_history.push o
  let improved := o.val_accuracy > t.best_val_accuracy
  let t2 : Trainer :=
    if improved then
      Trainer.mk o.newModel o.newOptim (t.schedState + 1) hist
        o.val_accuracy (some (bestModelPathOf epoch)) t.config
    else
      Trainer.mk o.newModel o.newOptim (t.schedState + 1) hist
        t.best_val_accuracy t.best_model_path t.config
  let bestEvents : List TrainEvent :=
    if improved then
      [TrainEvent.savedBest epoch (bestModelPathOf epoch) t2.save_model_file]
    else []
  let ckptEvents : List TrainEvent :=
    if (epoch + 1) % 10 = 0 then
      [TrainEvent.savedCkpt epoch (checkpointPathOf epoch)
        (t2.save_checkpoint_file epoch)]
    else []
  (t2, bestEvents ++ ckptEvents)

/-- The epoch loop of `Trainer.train` over a given list of epoch indices,
threading the trainer state and concatenating the file writes. -/
def Trainer.trainLoop (t : Trainer) (outcomes : Nat → EpochOutcome) :
    List Nat → Trainer × List TrainEvent
  | [] => (t, [])
  | e :: rest =>
    let r1 := t.epochBody e (outcomes e)
    let r2 := r1.1.trainLoop outcomes rest
    (r2.1, r1.2 ++ r2.2)

/-- `Trainer.train` (training_utils.py lines 159-207): the loop runs
`for epoch in range(num_epochs)` and a final unconditional `save_model`
follows it.  Returns the final trainer state, the list of executed epoch
indices, and the file writes. -/
def Trainer.train (t : Trainer) (num_epochs : Nat)
    (outcomes : Nat → EpochOutcome) : Trainer × List Nat × List TrainEvent :=
  let r := t.trainLoop outcomes (List.range num_epochs)
  (r.1, List.range num_epochs,
    r.2 ++ [TrainEvent.savedFinal "final_model.pth" r.1.save_model_file])

/-- Recorded best validation accuracy after the first `i` epochs of a run
that starts from trainer state `t`. -/
def Trainer.bestAfter (t : Trainer) (outcomes : Nat → EpochOutcome) (i : Nat) : ℚ :=
  (t.trainLoop outcomes (List.range i)).1.best_val_accuracy

/-- The resume path of `train.py main` (lines 104-116): when `--resume` is
given, `load_checkpoint` restores the trainer and its returned epoch is
printed, then `trainer.train(num_epochs=config.num_epochs, ...)` is invoked.
The loaded epoch is not passed to `train`. -/
def resumeAndTrain (t : Trainer) (ckpt : SaveFile) (num_epochs : Nat)
    (outcomes : Nat → EpochOutcome) :
    Except String ((Trainer × List Nat × List TrainEvent) × Nat) :=
  match t.load_checkpoint ckpt with
  | Except.error e => Except.error e
  | Except.ok r => Except.ok (r.1.train num_epochs outcomes, r.2)

/-- A concrete history used by the concrete runs below. -/
def exHistory : TrainHistory :=
  TrainHistory.mk [1.5] [40] [1.7] [35]

/-- A concrete trainer state standing for the trainer that wrote a periodic
checkpoint at epoch index 9 in an earlier run. -/
def exSavedTrainer : Trainer :=
  Trainer.mk 77 88 10 exHistory 35 (some "best_model_epoch_7.pth") {}

/-- A freshly constructed trainer (training_utils.py lines 22-74: empty
history, best accuracy 0.0, scheduler at step 0). -/
def exFreshTrainer : Trainer :=
  Trainer.mk 1 2 0 TrainHistory.empty 0 none {}

/-- A concrete stream of per-epoch outcomes. -/
def exOutcomes : Nat → EpochOutcome :=
  fun i => EpochOutcome.mk (100 + i) (200 + i) 1 50 1 (40 + i)

/-- A filesystem whose `val` split directory is absent while a class mapping
is supplied by the caller. -/
def fsAbsentSplit : FS :=
  FS.mk none ["train"] (fun _ => ["pizza", "sushi"]) (fun _ _ => ["img_0.jpg"])

/-- A filesystem whose `val` split directory is absent while a persisted
`class_mapping.json` exists next to the data directory. -/
def fsMappingFile : FS :=
  FS.mk (some [("pizza", 0)]) ["train"] (fun _ => ["pizza"])
    (fun _ _ => ["img_0.jpg"])

/-- A filesystem with no persisted `class_mapping.json` and an existing
`train` split holding two class directories. -/
def fsTwoClasses : FS :=
  FS.mk none ["train"] (fun _ => ["sushi", "pizza"])
    (fun _ c => [c ++ "_0.jpg"])

/-- A configuration whose split ratios sum to 0.7 instead of 1.0. -/
def badSplitConfig : ModelConfig :=
  { train_split := 0.5, val_split := 0.1, test_split := 0.1 }

/-- The model `create_model "efficientnet_b4" 101 True` assembles: the
classifier derives feature dimension 1792 from the timm backbone while the
macro estimator is built with the heuristic dimension 1280. -/
def effB4Model : FoodRecognitionModel :=
  FoodRecognitionModel.mk (FoodClassifier.mk "efficientnet_b4" 101 1792)
    (some (MacroEstimator.mk 1280 512)) true

/-- The model `create_model "resnet50" 101 True` assembles: here the
heuristic dimension 2048 agrees with the backbone's. -/
def resnet50Model : FoodRecognitionModel :=
  FoodRecognitionModel.mk (FoodClassifier.mk "resnet50" 101 2048)
    (some (MacroEstimator.mk 2048 512)) true

/-- C2: for every training batch — whatever the macro-estimation flag and
whatever macro output the forward pass produced — the loss value handed to
`loss.backward()` and applied by `optimizer.step()` is the classification
cross-entropy alone, and the backpropagated expression never mentions the
macro-regression term. -/
theorem batch_loss_is_classification_only :
    ∀ (macro_enabled : Bool) (macro_output : Option (List ℚ)) (cls : ℚ),
      train_epoch_batch_loss macro_enabled macro_output cls = cls ∧
      train_epoch_batch_loss_expr macro_enabled macro_output.isSome =
        LossExpr.crossEntropy ∧
      LossExpr.mentionsMacroTerm
        (train_epoch_batch_loss_expr macro_enabled macro_output.isSome) = false := by
  intro macro_enabled macro_output cls
  refine ⟨?_, ?_, ?_⟩
  · unfold train_epoch_batch_loss
    split <;> rfl
  · unfold train_epoch_batch_loss_expr
    split <;> rfl
  · unfold train_epoch_batch_loss_expr
    split <;> rfl

/-- C6: the predictor's macro lookup returns the all-zero record for every
category name absent from the static table, and exactly
calories 280, protein 12, carbs 35, fat 12, fiber 2 for "pizza". -/
theorem macro_lookup_default_and_pizza :
    (∀ name, dictLookup food_categories name = none →
        getMacrosForClass name = zeroMacros) ∧
    getMacrosForClass "pizza" = Macros.mk 280 12.0 35.0 12.0 2.0 := by
  constructor
  · intro name h
    unfold getMacrosForClass
    rw [h]
  · rfl

/-- Witness for C6's first conjunct at the concrete absent name
"caviar". -/
theorem macro_lookup_default_witness :
    dictLookup food_categories "caviar" = none ∧
    getMacrosForClass "caviar" = zeroMacros :=
  ⟨by decide, macro_lookup_default_and_pizza.1 "caviar" (by decide)⟩

/-- C7: saving a periodic checkpoint and loading it into any trainer
restores the model parameters, optimizer state, scheduler step count,
training history and best validation accuracy of the saved trainer verbatim,
and returns the saved epoch number. -/
theorem checkpoint_roundtrip (t t' : Trainer) (e : Nat) :
    t'.load_checkpoint (t.save_checkpoint_file e) =
      Except.ok (Trainer.mk t.modelState t.optimState t.schedState
        t.train_history t.best_val_accuracy t'.best_model_path t'.config, e) :=
  rfl

/-- C10: every file `save_model` writes (the best-model and final-model
files) omits the epoch, optimizer-state, scheduler-state and best-accuracy
fields, and `load_checkpoint` on such a file always fails with a missing-key
error (the first key read that is absent is `optimizer_state_dict`). -/
theorem save_model_file_not_loadable (t t' : Trainer) :
    (t.save_model_file).epoch = none ∧
    (t.save_model_file).optimizer_state_dict = none ∧
    (t.save_model_file).scheduler_state_dict = none ∧
    (t.save_model_file).best_val_accuracy = none ∧
    t'.load_checkpoint t.save_model_file =
      Except.error "KeyError: optimizer_state_dict" :=
  ⟨rfl, rfl, rfl, rfl, rfl⟩

/-- C9: `create_model` sizes the macro estimator by string heuristics on the
model name alone; for the supported name "efficientnet_b4" the heuristic
gives 1280 while the classifier derives 1792 from its backbone, so
construction succeeds but the assembled model's forward pass fails at
runtime; for "resnet50" the dimensions agree and the forward pass yields the
(num_classes, 5) outputs. -/
theorem create_model_macro_dim_mismatch :
    create_model "efficientnet_b4" 101 true = Except.ok effB4Model ∧
    effB4Model.macro_estimator =
      some (MacroEstimator.mk (createModelMacroFeatureDim "efficientnet_b4") 512) ∧
    createModelMacroFeatureDim "efficientnet_b4" = 1280 ∧
    effB4Model.classifier.feature_dim = 1792 ∧
    effB4Model.forwardOutputDims = none ∧
    create_model "resnet50" 101 true = Except.ok resnet50Model ∧
    resnet50Model.forwardOutputDims = some (101, some 5) := by
  refine ⟨rfl, by decide, by decide, rfl, rfl, rfl, rfl⟩

/-- C5 counterexample: a configuration whose split ratios sum to 0.7
constructs without any error — `__post_init__` performs no ratio
validation. -/
theorem split_ratios_not_validated :
    ModelConfig.construct badSplitConfig = Except.ok badSplitConfig ∧
    badSplitConfig.train_split + badSplitConfig.val_split
      + badSplitConfig.test_split ≠ 1 := by
  refine ⟨rfl, ?_⟩
  norm_num [badSplitConfig]

/-- C5 amended: an unrecognized architecture name (no resnet / efficientnet
/ vit prefix) fails fast at model construction with the unsupported-model
error, while `ModelConfig` construction succeeds for every field assignment
— split ratios are never validated. -/
theorem construction_error_taxonomy :
    (∀ (name : String) (n : Nat),
        strStartsWith name "resnet" = false →
        strStartsWith name "efficientnet" = false →
        strStartsWith name "vit" = false →
        FoodClassifier.init name n =
          Except.error ("Unsupported model: " ++ name)) ∧
    (∀ c : ModelConfig, ModelConfig.construct c = Except.ok c) := by
  constructor
  · intro name n h1 h2 h3
    simp [FoodClassifier.init, h1, h2, h3]
  · intro c
    rfl

/-- Witness for C5's amended theorem at the concrete name "alexnet". -/
theorem construction_error_taxonomy_witness :
    strStartsWith "alexnet" "resnet" = false ∧
    FoodClassifier.init "alexnet" 10 =
      Except.error "Unsupported model: alexnet" :=
  ⟨by decide, construction_error_taxonomy.1 "alexnet" 10 (by decide)
    (by decide) (by decide)⟩

/-- C1 counterexample: resuming from a periodic checkpoint that records
epoch index 9 and then training for 20 epochs executes epoch indices
0, 1, ..., 19 — the first epoch run is 0, not the recorded epoch + 1 = 10. -/
theorem resume_restarts_at_epoch_zero :
    (resumeAndTrain exFreshTrainer (exSavedTrainer.save_checkpoint_file 9)
        20 exOutcomes).map (fun r => (r.1.2.1, r.2)) =
      Except.ok (List.range 20, 9) ∧
    (List.range 20).head? = some 0 ∧
    (List.range 20).head? ≠ some (9 + 1) := by
  refine ⟨rfl, by decide, by decide⟩

/-- C1 amended: `load_checkpoint` restores the trainer state and hands back
the recorded epoch, but `train.py` only prints that epoch — the subsequent
`trainer.train(num_epochs)` executes epoch indices 0, ..., num_epochs-1
regardless of the checkpoint. -/
theorem resume_then_train_runs_all_epochs (t : Trainer) (f : SaveFile)
    (n : Nat) (outcomes : Nat → EpochOutcome) (t1 : Trainer) (e : Nat)
    (h : t.load_checkpoint f = Except.ok (t1, e)) :
    resumeAndTrain t f n outcomes = Except.ok (t1.train n outcomes, e) ∧
    (t1.train n outcomes).2.1 = List.range n := by
  constructor
  · unfold resumeAndTrain
    rw [h]
  · rfl

/-- Witness for C1's amended theorem at a concrete checkpoint and run
length. -/
theorem resume_then_train_runs_all_epochs_witness :
    exFreshTrainer.load_checkpoint (exSavedTrainer.save_checkpoint_file 9) =
      Except.ok (Trainer.mk 77 88 10 exHistory 35 none {}, 9) ∧
    (resumeAndTrain exFreshTrainer (exSavedTrainer.save_checkpoint_file 9)
        3 exOutcomes =
      Except.ok ((Trainer.mk 77 88 10 exHistory 35 none {}).train 3 exOutcomes, 9) ∧
    ((Trainer.mk 77 88 10 exHistory 35 none {}).train 3 exOutcomes).2.1 =
      List.range 3) :=
  ⟨rfl, resume_then_train_runs_all_epochs exFreshTrainer
    (exSavedTrainer.save_checkpoint_file 9) 3 exOutcomes
    (Trainer.mk 77 88 10 exHistory 35 none {}) 9 rfl⟩

/-- The best-accuracy field after one epoch body is the maximum update the
source's comparison performs (training_utils.py lines 190-191). -/
theorem epochBody_best (t : Trainer) (e : Nat) (o : EpochOutcome) :
    ((t.epochBody e o).1).best_val_accuracy =
      if o.val_accuracy > t.best_val_accuracy then o.val_accuracy
      else t.best_val_accuracy := by
  dsimp only [Trainer.epochBody]
  split
  · rfl
  · rfl

/-- One epoch body never lowers the recorded best accuracy. -/
theorem epochBody_best_le (t : Trainer) (e : Nat) (o : EpochOutcome) :
    t.best_val_accuracy ≤ ((t.epochBody e o).1).best_val_accuracy := by
  rw [epochBody_best]
  split
  · exact le_of_lt (by assumption)
  · exact le_refl _

/-- A best-model write emitted by one epoch body carries that epoch's index
and only happens when the epoch's validation accuracy strictly exceeds the
best so far. -/
theorem savedBest_mem_epochBody {t : Trainer} {e : Nat} {o : EpochOutcome}
    {i : Nat} {p : String} {f : SaveFile}
    (h : TrainEvent.savedBest i p f ∈ (t.epochBody e o).2) :
    i = e ∧ o.val_accuracy > t.best_val_accuracy := by
  dsimp only [Trainer.epochBody] at h
  rw [List.mem_append] at h
  rcases h with h | h
  · split at h
    · next hc =>
      simp only [List.mem_singleton, TrainEvent.savedBest.injEq] at h
      exact ⟨h.1, hc⟩
    · simp at h
  · split at h
    · simp at h
    · simp at h

/-- When an epoch's validation accuracy strictly exceeds the best so far,
the epoch body emits a best-model write for that epoch. -/
theorem epochBody_emits_savedBest (t : Trainer) (e : Nat) (o : EpochOutcome)
    (h : o.val_accuracy > t.best_val_accuracy) :
    ∃ p f, TrainEvent.savedBest e p f ∈ (t.epochBody e o).2 := by
  dsimp only [Trainer.epochBody]
  rw [if_pos h]
  exact ⟨_, _, List.mem_append_left _ (List.mem_singleton_self _)⟩

/-- The epoch loop over a concatenation of epoch lists runs the second list
from the state the first one reaches, concatenating the writes. -/
theorem trainLoop_append (t : Trainer) (outcomes : Nat → EpochOutcome)
    (l1 l2 : List Nat) :
    t.trainLoop outcomes (l1 ++ l2) =
      (((t.trainLoop outcomes l1).1.trainLoop outcomes l2).1,
        (t.trainLoop outcomes l1).2 ++
          ((t.trainLoop outcomes l1).1.trainLoop outcomes l2).2) := by
  induction l1 generalizing t with
  | nil => simp [Trainer.trainLoop]
  | cons e rest ih =>
    simp only [List.cons_append, Trainer.trainLoop, List.append_eq]
    rw [ih]
    simp [List.append_assoc]

/-- The recorded best accuracy never decreases from one epoch to the next. -/
theorem bestAfter_le_succ (t : Trainer) (outcomes : Nat → EpochOutcome)
    (i : Nat) :
    t.bestAfter outcomes i ≤ t.bestAfter outcomes (i + 1) := by
  unfold Trainer.bestAfter
  rw [List.range_succ, trainLoop_append]
  simp only [Trainer.trainLoop]
  exact epochBody_best_le _ _ _

/-- Across the epoch loop over `range n`, a best-model write for epoch `i`
occurs exactly when `i` is executed and its validation accuracy strictly
exceeds the best recorded before it. -/
theorem savedBest_mem_trainLoop_range (t : Trainer)
    (outcomes : Nat → EpochOutcome) (n i : Nat) :
    (∃ p f, TrainEvent.savedBest i p f ∈
        (t.trainLoop outcomes (List.range n)).2) ↔
      (i < n ∧ (outcomes i).val_accuracy > t.bestAfter outcomes i) := by
  induction n with
  | zero =>
    simp [Trainer.trainLoop, List.range_zero]
  | succ n ih =>
    rw [List.range_succ, trainLoop_append]
    constructor
    · rintro ⟨p, f, hmem⟩
      rw [List.mem_append] at hmem
      rcases hmem with hmem | hmem
      · have h := ih.mp ⟨p, f, hmem⟩
        exact ⟨Nat.lt_succ_of_lt h.1, h.2⟩
      · simp only [Trainer.trainLoop, List.append_nil] at hmem
        obtain ⟨hie, hgt⟩ := savedBest_mem_epochBody hmem
        subst hie
        exact ⟨Nat.lt_succ_self _, hgt⟩
    · rintro ⟨hlt, hgt⟩
      rcases Nat.lt_succ_iff_lt_or_eq.mp hlt with hlt' | heq
      · obtain ⟨p, f, hmem⟩ := ih.mpr ⟨hlt', hgt⟩
        exact ⟨p, f, List.mem_append_left _ hmem⟩
      · subst heq
        obtain ⟨p, f, hmem⟩ := epochBody_emits_savedBest
          ((t.trainLoop outcomes (List.range i)).1) i (outcomes i) hgt
        refine ⟨p, f, List.mem_append_right _ ?_⟩
        simp only [Trainer.trainLoop, List.append_nil]
        exact hmem

/-- C3: over every training run the recorded best validation accuracy is
non-decreasing from epoch to epoch, and a best-model checkpoint file is
written in an epoch if and only if that epoch runs and its validation
accuracy strictly exceeds the previous best. -/
theorem best_monotone_and_best_save_iff (t : Trainer)
    (outcomes : Nat → EpochOutcome) (n i : Nat) :
    t.bestAfter outcomes i ≤ t.bestAfter outcomes (i + 1) ∧
    ((∃ p f, TrainEvent.savedBest i p f ∈ (t.train n outcomes).2.2) ↔
      (i < n ∧ (outcomes i).val_accuracy > t.bestAfter outcomes i)) := by
  refine ⟨bestAfter_le_succ t outcomes i, ?_⟩
  rw [← savedBest_mem_trainLoop_range t outcomes n i]
  unfold Trainer.train
  constructor
  · rintro ⟨p, f, hmem⟩
    rw [List.mem_append] at hmem
    rcases hmem with hmem | hmem
    · exact ⟨p, f, hmem⟩
    · simp at hmem
  · rintro ⟨p, f, hmem⟩
    exact ⟨p, f, List.mem_append_left _ hmem⟩

/-- Enumerating a class list from a running index, as an association list in
insertion order — `assocFrom k [c0, c1, ...] = [(c0, k), (c1, k+1), ...]`. -/
def assocFrom (k : Nat) : List String → List (String × Nat)
  | [] => []
  | c :: t => (c, k) :: assocFrom (k + 1) t

/-- A flatMap whose function returns the empty list is empty. -/
theorem flatMap_const_nil {α β : Type _} (l : List α) :
    l.flatMap (fun _ => ([] : List β)) = [] := by
  induction l with
  | nil => rfl
  | cons a t ih => simp [List.flatMap_cons, ih]

/-- `buildClassMapping` is enumeration from index 0. -/
theorem buildClassMapping_eq_assocFrom (cs : List String) :
    buildClassMapping cs = assocFrom 0 cs := by
  unfold buildClassMapping
  rw [List.enum_eq_enumFrom]
  generalize 0 = k
  induction cs generalizing k with
  | nil => rfl
  | cons c t ih => simp [List.enumFrom_cons, assocFrom, ih]

/-- Keys of the enumerated association list are the class names. -/
theorem assocFrom_keys (k : Nat) (cs : List String) :
    (assocFrom k cs).map Prod.fst = cs := by
  induction cs generalizing k with
  | nil => rfl
  | cons c t ih => simp [assocFrom, ih]

/-- Values of the enumerated association list are the consecutive indices
starting at `k`. -/
theorem assocFrom_values (k : Nat) (cs : List String) :
    (assocFrom k cs).map Prod.snd = List.range' k cs.length := by
  induction cs generalizing k with
  | nil => rfl
  | cons c t ih => simp [assocFrom, List.range', ih]

/-- Length of the enumerated association list. -/
theorem assocFrom_length (k : Nat) (cs : List String) :
    (assocFrom k cs).length = cs.length := by
  induction cs generalizing k with
  | nil => rfl
  | cons c t ih => simp [assocFrom, ih]

/-- A name outside the class list has no binding. -/
theorem dictLookup_assocFrom_of_not_mem (cs : List String) (k : Nat)
    (name : String) (h : name ∉ cs) :
    dictLookup (assocFrom k cs) name = none := by
  induction cs generalizing k with
  | nil => rfl
  | cons c t ih =>
    simp only [assocFrom, dictLookup]
    rw [ih (k + 1) (fun hm => h (List.mem_cons_of_mem c hm))]
    have hne : (c == name) = false :=
      beq_eq_false_iff_ne.mpr (fun he => h (he ▸ List.mem_cons_self c t))
    rw [hne]
    rfl

/-- An index below the starting index has no binding in the inverted
mapping. -/
theorem dictLookup_invert_assocFrom_lt (cs : List String) (k i : Nat)
    (h : i < k) :
    dictLookup (invertPairs (assocFrom k cs)) i = none := by
  induction cs generalizing k with
  | nil => rfl
  | cons c t ih =>
    show dictLookup ((k, c) :: invertPairs (assocFrom (k + 1) t)) i = none
    simp only [dictLookup]
    rw [ih (k + 1) (Nat.lt_succ_of_lt h)]
    have hne : (k == i) = false :=
      beq_eq_false_iff_ne.mpr (fun he => Nat.lt_irrefl k (he ▸ h))
    rw [hne]
    rfl

/-- For a duplicate-free class list, every name's index round-trips through
the mapping and its inverse. -/
theorem assocFrom_bijection (cs : List String) (hnd : cs.Nodup) (k : Nat)
    (name : String) (hmem : name ∈ cs) :
    ∃ i, dictLookup (assocFrom k cs) name = some i ∧
      dictLookup (invertPairs (assocFrom k cs)) i = some name := by
  induction cs generalizing k with
  | nil => cases hmem
  | cons c t ih =>
    have hcnot : c ∉ t := (List.nodup_cons.mp hnd).1
    have hndt : t.Nodup := (List.nodup_cons.mp hnd).2
    rcases List.mem_cons.mp hmem with heq | hmemt
    · subst heq
      refine ⟨k, ?_, ?_⟩
      · show dictLookup ((name, k) :: assocFrom (k + 1) t) name = some k
        simp only [dictLookup]
        rw [dictLookup_assocFrom_of_not_mem t (k + 1) name hcnot]
        simp
      · show dictLookup ((k, name) :: invertPairs (assocFrom (k + 1) t)) k =
          some name
        simp only [dictLookup]
        rw [dictLookup_invert_assocFrom_lt t (k + 1) k (Nat.lt_succ_self k)]
        simp
    · obtain ⟨i, h1, h2⟩ := ih hndt (k + 1) hmemt
      refine ⟨i, ?_, ?_⟩
      · show dictLookup ((c, k) :: assocFrom (k + 1) t) name = some i
        simp only [dictLookup]
        rw [h1]
      · show dictLookup ((k, c) :: invertPairs (assocFrom (k + 1) t)) i =
          some name
        simp only [dictLookup]
        rw [h2]

/-- C8: when the dataset adapter builds the class mapping from the split
directory's (duplicate-free) subdirectory names, the mapping is a bijection:
every known name round-trips through `class_to_idx` and `idx_to_class`, and
the indices are exactly 0, ..., num_classes-1 with no gaps. -/
theorem class_mapping_is_bijection (fs : FS) (split : String)
    (hfile : fs.class_mapping_file = none)
    (hs : fs.split_dirs.contains split = true)
    (hnd : (fs.class_dirs split).Nodup) :
    ∃ ds, FoodDataset.init fs split none = Except.ok ds ∧
      (∀ name, name ∈ ds.class_mapping.map Prod.fst →
        ∃ i, dictLookup ds.class_mapping name = some i ∧
          dictLookup ds.idx_to_class i = some name) ∧
      ds.class_mapping.map Prod.snd = List.range ds.class_mapping.length := by
  have hsorted : (sortStrings (fs.class_dirs split)).Nodup :=
    ((List.mergeSort_perm (fs.class_dirs split) _).symm).nodup hnd
  unfold FoodDataset.init
  rw [hfile, hs]
  simp only [Bool.true_and, if_true]
  refine ⟨_, rfl, ?_, ?_⟩
  · intro name hmem
    rw [buildClassMapping_eq_assocFrom, assocFrom_keys] at hmem
    rw [buildClassMapping_eq_assocFrom]
    exact assocFrom_bijection (sortStrings (fs.class_dirs split)) hsorted 0
      name hmem
  · rw [buildClassMapping_eq_assocFrom, assocFrom_values, assocFrom_length,
      List.range_eq_range']

/-- Witness for C8 at a concrete two-class filesystem. -/
theorem class_mapping_is_bijection_witness :
    fsTwoClasses.class_mapping_file = none ∧
    fsTwoClasses.split_dirs.contains "train" = true ∧
    (fsTwoClasses.class_dirs "train").Nodup ∧
    (∃ ds, FoodDataset.init fsTwoClasses "train" none = Except.ok ds ∧
      (∀ name, name ∈ ds.class_mapping.map Prod.fst →
        ∃ i, dictLookup ds.class_mapping name = some i ∧
          dictLookup ds.idx_to_class i = some name) ∧
      ds.class_mapping.map Prod.snd = List.range ds.class_mapping.length) :=
  ⟨rfl, by decide, by decide,
    class_mapping_is_bijection fsTwoClasses "train" rfl (by decide) (by decide)⟩

/-- C4 counterexample: with a supplied class mapping, constructing the
dataset adapter for the absent "val" split succeeds and yields zero samples
instead of failing with a Not-Found condition. -/
theorem absent_split_zero_samples_cex :
    fsAbsentSplit.split_dirs.contains "val" = false ∧
    FoodDataset.init fsAbsentSplit "val" (some [("pizza", 0)]) =
      Except.ok (FoodDataset.mk [("pizza", 0)] [(0, "pizza")] [] []) := by
  refine ⟨by decide, rfl⟩

/-- C4 amended: for an absent split directory, construction fails with
FileNotFoundError exactly when the class mapping has to be built by scanning
that directory (no mapping argument and no persisted mapping file); in both
other cases — a mapping supplied by the caller, or a persisted
`class_mapping.json` — construction succeeds with an empty sample list. -/
theorem absent_split_behavior (fs : FS) (split : String)
    (habs : fs.split_dirs.contains split = false) :
    (fs.class_mapping_file = none →
      FoodDataset.init fs split none = Except.error "FileNotFoundError") ∧
    (∀ m, FoodDataset.init fs split (some m) =
      Except.ok (FoodDataset.mk m (invertPairs m) [] [])) ∧
    (∀ m, fs.class_mapping_file = some m →
      FoodDataset.init fs split none =
        Except.ok (FoodDataset.mk m (invertPairs m) [] [])) := by
  refine ⟨?_, ?_, ?_⟩
  · intro hfile
    unfold FoodDataset.init
    rw [hfile, habs]
    rfl
  · intro m
    unfold FoodDataset.init
    rw [habs]
    simp only [Bool.false_and, Bool.false_eq_true, if_false]
    rw [flatMap_const_nil]
    rfl
  · intro m hfile
    unfold FoodDataset.init
    rw [hfile, habs]
    simp only [Bool.false_and, Bool.false_eq_true, if_false]
    rw [flatMap_const_nil]
    rfl

/-- Witness for C4's amended theorem, exercising both the scan-needed
filesystem (no mapping file) and the one with a persisted
`class_mapping.json`, each without a `val` split. -/
theorem absent_split_behavior_witness :
    fsAbsentSplit.split_dirs.contains "val" = false ∧
    fsMappingFile.split_dirs.contains "val" = false ∧
    ((fsAbsentSplit.class_mapping_file = none →
        FoodDataset.init fsAbsentSplit "val" none =
          Except.error "FileNotFoundError") ∧
      (∀ m, FoodDataset.init fsAbsentSplit "val" (some m) =
        Except.ok (FoodDataset.mk m (invertPairs m) [] [])) ∧
      (∀ m, fsAbsentSplit.class_mapping_file = some m →
        FoodDataset.init fsAbsentSplit "val" none =
          Except.ok (FoodDataset.mk m (invertPairs m) [] []))) ∧
    ((fsMappingFile.class_mapping_file = none →
        FoodDataset.init fsMappingFile "val" none =
          Except.error "FileNotFoundError") ∧
      (∀ m, FoodDataset.init fsMappingFile "val" (some m) =
        Except.ok (FoodDataset.mk m (invertPairs m) [] [])) ∧
      (∀ m, fsMappingFile.class_mapping_file = some m →
        FoodDataset.init fsMappingFile "val" none =
          Except.ok (FoodDataset.mk m (invertPairs m) [] []))) :=
  ⟨by decide, by decide,
    absent_split_behavior fsAbsentSplit "val" (by decide),
    absent_split_behavior fsMappingFile "val" (by decide)⟩
